import Mathlib

/-!
Verification of the TailGrid core: a shallow embedding of the GridEngine
(sorting, filtering, pagination, selection, column sizing processors from
packages/core/src/engine) and of the AI query pipeline (prompt construction
and response parsing from packages/ai/src), with theorems settling the
frozen claims about the natural-language specification.

Modelling conventions:
* JavaScript runtime values are the inductive `Value`.  `Value.null` models
  both `null` and `undefined`: the engine only ever distinguishes them with
  `== null`, which matches both.  Numbers are modelled as integers (every
  claim under study is about integral data); `NaN` is modelled by `none`
  in `Option Int` results.  `Date` objects carry their epoch milliseconds.
* `Array.prototype.sort` is required by ECMAScript to be stable, and for a
  consistent comparator the stable order is unique, so it is modelled by a
  stable insertion sort (`stableSort`), which agrees with any conforming
  implementation on consistent comparators.
* All functions are total; "the operation does not raise" is captured by
  totality of the embedding.
-/

namespace TailGrid

/-- JS values handled by the grid.  `null` models both `null` and
`undefined` (see module docstring); `date ms` is a `Date` object holding
epoch milliseconds; `arr` models JS arrays (used by the filter operators
`between`, `inList`, `isEmpty`). -/
inductive Value where
  | null
  | str (s : String)
  | num (n : Int)
  | bool (b : Bool)
  | date (ms : Int)
  | arr (elems : List Value)

mutual

/-- Decidable equality of JS values (manual: the deriving handler does not
support nested inductives). -/
def Value.decEq : (a b : Value) → Decidable (a = b)
  | .null, .null => isTrue rfl
  | .null, .str _ => isFalse (fun h => Value.noConfusion h)
  | .null, .num _ => isFalse (fun h => Value.noConfusion h)
  | .null, .bool _ => isFalse (fun h => Value.noConfusion h)
  | .null, .date _ => isFalse (fun h => Value.noConfusion h)
  | .null, .arr _ => isFalse (fun h => Value.noConfusion h)
  | .str _, .null => isFalse (fun h => Value.noConfusion h)
  | .str a, .str b =>
    if h : a = b then isTrue (by rw [h]) else
      isFalse (fun hh => by injection hh; contradiction)
  | .str _, .num _ => isFalse (fun h => Value.noConfusion h)
  | .str _, .bool _ => isFalse (fun h => Value.noConfusion h)
  | .str _, .date _ => isFalse (fun h => Value.noConfusion h)
  | .str _, .arr _ => isFalse (fun h => Value.noConfusion h)
  | .num _, .null => isFalse (fun h => Value.noConfusion h)
  | .num _, .str _ => isFalse (fun h => Value.noConfusion h)
  | .num a, .num b =>
    if h : a = b then isTrue (by rw [h]) else
      isFalse (fun hh => by injection hh; contradiction)
  | .num _, .bool _ => isFalse (fun h => Value.noConfusion h)
  | .num _, .date _ => isFalse (fun h => Value.noConfusion h)
  | .num _, .arr _ => isFalse (fun h => Value.noConfusion h)
  | .bool _, .null => isFalse (fun h => Value.noConfusion h)
  | .bool _, .str _ => isFalse (fun h => Value.noConfusion h)
  | .bool _, .num _ => isFalse (fun h => Value.noConfusion h)
  | .bool a, .bool b =>
    if h : a = b then isTrue (by rw [h]) else
      isFalse (fun hh => by injection hh; contradiction)
  | .bool _, .date _ => isFalse (fun h => Value.noConfusion h)
  | .bool _, .arr _ => isFalse (fun h => Value.noConfusion h)
  | .date _, .null => isFalse (fun h => Value.noConfusion h)
  | .date _, .str _ => isFalse (fun h => Value.noConfusion h)
  | .date _, .num _ => isFalse (fun h => Value.noConfusion h)
  | .date a, .date b =>
    if h : a = b then isTrue (by rw [h]) else
      isFalse (fun hh => by injection hh; contradiction)
  | .date _, .bool _ => isFalse (fun h => Value.noConfusion h)
  | .date _, .arr _ => isFalse (fun h => Value.noConfusion h)
  | .arr _, .null => isFalse (fun h => Value.noConfusion h)
  | .arr _, .str _ => isFalse (fun h => Value.noConfusion h)
  | .arr _, .num _ => isFalse (fun h => Value.noConfusion h)
  | .arr _, .bool _ => isFalse (fun h => Value.noConfusion h)
  | .arr _, .date _ => isFalse (fun h => Value.noConfusion h)
  | .arr a, .arr b =>
    match Value.decEqList a b with
    | isTrue h => isTrue (by rw [h])
    | isFalse h => isFalse (fun hh => by injection hh; contradiction)

/-- Decidable equality of JS value lists. -/
def Value.decEqList : (a b : List Value) → Decidable (a = b)
  | [], [] => isTrue rfl
  | [], _ :: _ => isFalse (fun h => List.noConfusion h)
  | _ :: _, [] => isFalse (fun h => List.noConfusion h)
  | a :: as, b :: bs =>
    match Value.decEq a b with
    | isFalse h => isFalse (fun hh => by injection hh; contradiction)
    | isTrue h1 =>
      match Value.decEqList as bs with
      | isTrue h2 => isTrue (by rw [h1, h2])
      | isFalse h2 => isFalse (fun hh => by injection hh; contradiction)

end

instance : DecidableEq Value := Value.decEq

/-- The `dataType` field of a column: `'string' | 'number' | 'date' |
'boolean' | 'currency'`. -/
inductive DataType where
  | string
  | number
  | date
  | boolean
  | currency
deriving DecidableEq

/-- A data row.  `TData` is opaque in the source; rows are modelled as JS
records (association lists of field name to value), which is how every
accessor in the source reads them. -/
abbrev Row := List (String × Value)

/-- Property lookup `obj[key]` on a JS object modelled as an association
list; `none` models `undefined`. -/
def jsObjGet {α : Type} (obj : List (String × α)) (key : String) : Option α :=
  (obj.find? (fun p => p.1 == key)).map (fun p => p.2)

/-- Spread-update `{...obj, [key]: v}`: an existing key keeps its position
and gets the new value, a new key is appended. -/
def jsObjSet {α : Type} (obj : List (String × α)) (key : String) (v : α) :
    List (String × α) :=
  if (obj.find? (fun p => p.1 == key)).isSome then
    obj.map (fun p => if p.1 == key then (key, v) else p)
  else
    obj ++ [(key, v)]

mutual

/-- `String(v)` for JS values.  A `Date` renders with seconds precision in
JS ("Mon Jan 01 2024 10:00:00 GMT+0000"); the model keeps the
seconds-truncated epoch count, which preserves equality and distinctness of
the rendered strings (for a fixed time zone). -/
def jsToString : Value → String
  | .null => "null"
  | .str s => s
  | .num n => toString n
  | .bool b => if b then "true" else "false"
  | .date ms => "[Date " ++ toString (Int.fdiv ms 1000) ++ "]"
  | .arr es => jsArrJoin es

/-- `Array.prototype.toString`: join with ",", rendering `null`/`undefined`
elements as the empty string. -/
def jsArrJoin : List Value → String
  | [] => ""
  | [.null] => ""
  | [e] => jsToString e
  | .null :: rest => "," ++ jsArrJoin rest
  | e :: rest => jsToString e ++ "," ++ jsArrJoin rest

end

/-- ASCII lower-casing of one character.  JS `toLowerCase` is full
Unicode; ASCII case folding suffices for every value in the claims.  All
string helpers here work over the character list (the library's
position-based string functions do not reduce in the kernel). -/
def jsCharToLower (c : Char) : Char :=
  if 65 ≤ c.toNat ∧ c.toNat ≤ 90 then Char.ofNat (c.toNat + 32) else c

/-- `String.prototype.toLowerCase()` (ASCII model). -/
def jsToLowerCase (s : String) : String :=
  String.mk (s.toList.map jsCharToLower)

/-- The whitespace characters trimmed / skipped in this development. -/
def isJsWhitespace (c : Char) : Bool :=
  c = ' ' || c = '\n' || c = '\t' || c = '\r'

/-- `String.prototype.trim()`. -/
def jsTrim (s : String) : String :=
  String.mk (((s.toList.dropWhile isJsWhitespace).reverse.dropWhile
    isJsWhitespace).reverse)

/-- Digits to a natural number (caller guarantees all characters are
digits). -/
def digitsToNat (cs : List Char) : Nat :=
  cs.foldl (fun acc c => acc * 10 + (c.toNat - 48)) 0

/-- `Number(s)` for a string: trimmed empty string is 0; otherwise the model
parses optionally signed integer literals; every other form (decimals,
exponents, hex, garbage) is `NaN` (`none`).  No claim involves non-integer
numeric strings. -/
def strToNumber (s : String) : Option Int :=
  let t := ((s.toList.dropWhile isJsWhitespace).reverse.dropWhile
    isJsWhitespace).reverse
  if t = [] then some 0
  else
    match t with
    | '+' :: rest =>
      if rest ≠ [] ∧ rest.all (fun c => c.isDigit) then
        some (digitsToNat rest)
      else none
    | '-' :: rest =>
      if rest ≠ [] ∧ rest.all (fun c => c.isDigit) then
        some (-(digitsToNat rest : Int))
      else none
    | _ =>
      if t.all (fun c => c.isDigit) then some (digitsToNat t) else none

/-- `Number(v)`.  `none` is `NaN`.  For `null` the model returns `NaN`
(JS gives 0 for `null` and `NaN` for `undefined`; the conflation is safe:
every use in the source is behind the engine's own `== null` guard or is
exercised only with non-null filter values in the claims). -/
def jsNumber : Value → Option Int
  | .null => none
  | .str s => strToNumber s
  | .num n => some n
  | .bool b => some (if b then 1 else 0)
  | .date ms => some ms
  | .arr es => strToNumber (jsToString (.arr es))

/-- Number of days from 1970-01-01 to year/month/day, months 1..12
(Howard Hinnant's days-from-civil algorithm, with floor division). -/
def daysFromCivil (y m d : Int) : Int :=
  let y' := if m ≤ 2 then y - 1 else y
  let era := Int.fdiv y' 400
  let yoe := y' - era * 400
  let mp := if m > 2 then m - 3 else m + 9
  let doy := Int.fdiv (153 * mp + 2) 5 + d - 1
  let doe := yoe * 365 + Int.fdiv yoe 4 - Int.fdiv yoe 100 + doy
  era * 146097 + doe - 719468

/-- Split a character list on a separator (the model of `String.splitOn`
for a one-character separator). -/
def splitOnChar (sep : Char) (cs : List Char) : List (List Char) :=
  cs.foldr
    (fun c acc =>
      if c = sep then [] :: acc
      else
        match acc with
        | g :: gs => (c :: g) :: gs
        | [] => [[c]])
    [[]]

/-- Days in a month, for validating ISO dates. -/
def daysInMonth (y m : Int) : Int :=
  if m = 2 then
    if (y % 4 = 0 ∧ y % 100 ≠ 0) ∨ y % 400 = 0 then 29 else 28
  else if m = 4 ∨ m = 6 ∨ m = 9 ∨ m = 11 then 30
  else 31

/-- `new Date(s)` for a string, as epoch milliseconds; `none` is an Invalid
Date.  The model parses the date-only ISO form "YYYY-MM-DD" (which JS reads
as UTC midnight); all other formats are treated as invalid.  No claim
involves date strings in other formats. -/
def jsParseDate (s : String) : Option Int :=
  match splitOnChar '-' s.toList with
  | [ys, ms, ds] =>
    if ys.length = 4 ∧ ms.length = 2 ∧ ds.length = 2 ∧
        ys.all (fun c => c.isDigit) ∧ ms.all (fun c => c.isDigit) ∧
        ds.all (fun c => c.isDigit) then
      let y : Int := digitsToNat ys
      let m : Int := digitsToNat ms
      let d : Int := digitsToNat ds
      if 1 ≤ m ∧ m ≤ 12 ∧ 1 ≤ d ∧ d ≤ daysInMonth y m then
        some (daysFromCivil y m d * 86400000)
      else none
    else none
  | _ => none

/-- `value instanceof Date ? value : new Date(String(value))`, as epoch
milliseconds (`none` = Invalid Date / NaN `getTime()`). -/
def toDateMs : Value → Option Int
  | .date ms => some ms
  | v => jsParseDate (jsToString v)

/-- `Date.prototype.toDateString()`: the calendar day ("Mon Jan 01 2024"),
modelled as the (UTC) day number so that two instants render equal exactly
when they fall on the same calendar day; an invalid date renders as
"Invalid Date" (as in JS, where two invalid dates therefore compare
equal). -/
def dayString (v : Value) : String :=
  match toDateMs v with
  | some ms => "[Day " ++ toString (Int.fdiv ms 86400000) ++ "]"
  | none => "Invalid Date"

/-- Case-folded lexicographic comparison of character lists. -/
def charListCmp : List Char → List Char → Int
  | [], [] => 0
  | [], _ :: _ => -1
  | _ :: _, [] => 1
  | x :: xs, y :: ys =>
    if x.toNat < y.toNat then -1
    else if y.toNat < x.toNat then 1
    else charListCmp xs ys

/-- Compare one chunk (a maximal run of digits or of non-digits): digit
runs compare by numeric value, other runs lexicographically. -/
def chunkCmp (x y : List Char) : Int :=
  if x ≠ [] ∧ y ≠ [] ∧ x.all (fun c => c.isDigit) ∧ y.all (fun c => c.isDigit) then
    if digitsToNat x < digitsToNat y then -1
    else if digitsToNat y < digitsToNat x then 1
    else 0
  else charListCmp x y

/-- Compare chunk sequences, first difference wins. -/
def chunksCmp : List (List Char) → List (List Char) → Int
  | [], [] => 0
  | [], _ :: _ => -1
  | _ :: _, [] => 1
  | x :: xs, y :: ys =>
    if chunkCmp x y = 0 then chunksCmp xs ys else chunkCmp x y

/-- Model of `a.localeCompare(b, undefined, {numeric: true, sensitivity:
'base'})`: case-insensitive (via lower-casing; the 'base' sensitivity also
folds diacritics, not modelled) with maximal digit runs compared
numerically.  The exact ICU collation is platform code; no theorem below
depends on this function beyond its totality and its position after the
null-handling in `compareValues`. -/
def localeCompareModel (a b : String) : Int :=
  chunksCmp
    (((jsToLowerCase a).toList).splitBy (fun c d => c.isDigit == d.isDigit))
    (((jsToLowerCase b).toList).splitBy (fun c d => c.isDigit == d.isDigit))

/-- Column definition (the fields of `TailGridColumn` consumed by the
engine).  `accessorFn` is an arbitrary function, as in the source. -/
structure TailGridColumn where
  id : String
  header : String := ""
  accessorKey : Option String := none
  accessorFn : Option (Row → Value) := none
  enableSorting : Option Bool := none
  enableFiltering : Option Bool := none
  width : Option Int := none
  minWidth : Option Int := none
  maxWidth : Option Int := none
  dataType : Option DataType := none

/-- `getRowValue`: resolve a row value through the column accessor
(`accessorFn` first, then `accessorKey`, else `undefined`). -/
def getRowValue (row : Row) (column : TailGridColumn) : Value :=
  match column.accessorFn with
  | some f => f row
  | none =>
    match column.accessorKey with
    | some k => (jsObjGet row k).getD .null
    | none => .null

/-- One entry of a sorting spec (`SortConfig`). -/
structure SortConfig where
  id : String
  desc : Bool
deriving DecidableEq

/-- `SortingState`: the ordered multi-column sort spec. -/
abbrev SortingState := List SortConfig

/-- `compareValues`: null/undefined handled first (null sorts as greater),
then a type dispatch on `dataType`.  The result is a JS number: `none`
models `NaN` (possible through `Number`/date coercions of unparseable
data). -/
def compareValues (a b : Value) (dataType : Option DataType) : Option Int :=
  if a = .null ∧ b = .null then some 0
  else if a = .null then some 1
  else if b = .null then some (-1)
  else
    match dataType with
    | some .number | some .currency =>
      match jsNumber a, jsNumber b with
      | some x, some y => some (x - y)
      | _, _ => none
    | some .date =>
      match toDateMs a, toDateMs b with
      | some x, some y => some (x - y)
      | _, _ => none
    | some .boolean =>
      some ((if a = .bool true then 1 else 0) - (if b = .bool true then 1 else 0))
    | _ => some (localeCompareModel (jsToString a) (jsToString b))

/-- Lookup in `new Map(columns.map(col => [col.id, col]))`: a duplicate id
is overwritten by the later entry, so the lookup returns the last column
with the given id. -/
def columnMapGet (columns : List TailGridColumn) (id : String) :
    Option TailGridColumn :=
  (columns.reverse).find? (fun c => c.id == id)

/-- The comparator closure passed to `sort` by `sortData`: walk the spec
entries in order; an unknown column id is skipped (`continue`); the first
non-zero comparison is returned, negated when that entry is descending.
A `NaN` comparison (`none`) passes the `result !== 0` test and is returned
(its negation is still `NaN`). -/
def rowCompareGo (columns : List TailGridColumn) (rowA rowB : Row) :
    SortingState → Option Int
  | [] => some 0
  | sort :: rest =>
    match columnMapGet columns sort.id with
    | none => rowCompareGo columns rowA rowB rest
    | some column =>
      match compareValues (getRowValue rowA column) (getRowValue rowB column)
          column.dataType with
      | some 0 => rowCompareGo columns rowA rowB rest
      | some r => some (if sort.desc then -r else r)
      | none => none

/-- The full row comparator for a sorting spec. -/
def rowComparator (sorting : SortingState) (columns : List TailGridColumn)
    (rowA rowB : Row) : Option Int :=
  rowCompareGo columns rowA rowB sorting

/-- Is the comparator result strictly positive?  The sort consumes the
comparator only through sign tests; `NaN` (`none`) is neither greater nor
smaller than zero, so it tests false (keep order). -/
def cmpGtb (c : Option Int) : Bool :=
  match c with
  | some r => decide (0 < r)
  | none => false

/-- Stable insertion: the new element `a` (originally positioned before
everything in the list) moves past exactly those elements it compares
greater than. -/
def stableInsert {α : Type} (cmp : α → α → Option Int) (a : α) :
    List α → List α
  | [] => [a]
  | b :: t => if cmpGtb (cmp a b) then b :: stableInsert cmp a t else a :: b :: t

/-- Model of `Array.prototype.sort(comparator)` (see module docstring):
a stable sort; for a consistent comparator this is the unique order
ECMAScript mandates. -/
def stableSort {α : Type} (cmp : α → α → Option Int) : List α → List α
  | [] => []
  | a :: t => stableInsert cmp a (stableSort cmp t)

/-- `sortData`: copy-and-sort with the multi-column comparator; an empty
spec returns the data unchanged. -/
def sortData (data : List Row) (sorting : SortingState)
    (columns : List TailGridColumn) : List Row :=
  if sorting.isEmpty then data
  else stableSort (rowComparator sorting columns) data

/-- The fixed 14-member `FilterOperator` enumeration. -/
inductive FilterOperator where
  | equals
  | notEquals
  | contains
  | notContains
  | startsWith
  | endsWith
  | gt
  | gte
  | lt
  | lte
  | between
  | inList
  | isEmpty
  | isNotEmpty
deriving DecidableEq

/-- A column filter `{id, operator, value}`. -/
structure ColumnFilter where
  id : String
  operator : FilterOperator
  value : Value
deriving DecidableEq

/-- `String.prototype.includes`. -/
def strIncludes (hay needle : String) : Bool :=
  decide (List.IsInfix needle.toList hay.toList)

/-- `Array.isArray(v) && v.length === 0`. -/
def isEmptyArray : Value → Bool
  | .arr es => es.isEmpty
  | _ => false

/-- `Number(a) === Number(b)` (`NaN === x` is false). -/
def jsNumEqb (a b : Value) : Bool :=
  match jsNumber a, jsNumber b with
  | some x, some y => decide (x = y)
  | _, _ => false

/-- `Number(a) !== Number(b)` (`NaN !== x` is true). -/
def jsNumNeb (a b : Value) : Bool :=
  match jsNumber a, jsNumber b with
  | some x, some y => decide (x ≠ y)
  | _, _ => true

/-- `a > b` on JS numbers (false when either is `NaN`). -/
def optGt (a b : Option Int) : Bool :=
  match a, b with
  | some x, some y => decide (y < x)
  | _, _ => false

/-- `a >= b` on JS numbers (false when either is `NaN`). -/
def optGe (a b : Option Int) : Bool :=
  match a, b with
  | some x, some y => decide (y ≤ x)
  | _, _ => false

/-- `a < b` on JS numbers (false when either is `NaN`). -/
def optLt (a b : Option Int) : Bool :=
  match a, b with
  | some x, some y => decide (x < y)
  | _, _ => false

/-- `a <= b` on JS numbers (false when either is `NaN`). -/
def optLe (a b : Option Int) : Bool :=
  match a, b with
  | some x, some y => decide (x ≤ y)
  | _, _ => false

/-- `matchesFilter`: `isEmpty`/`isNotEmpty` ignore the data type; for the
remaining operators a null/undefined value never matches; then the
operator switch, with `equals` type-dispatched over number/currency,
boolean, and date, while `notEquals` dispatches only over number/currency
and boolean (there is no date branch: a date column falls through to the
case-insensitive string comparison). -/
def matchesFilter (value : Value) (filter : ColumnFilter)
    (dataType : Option DataType) : Bool :=
  let filterValue := filter.value
  if filter.operator = .isEmpty then
    decide (value = .null) || decide (value = .str "") || isEmptyArray value
  else if filter.operator = .isNotEmpty then
    !decide (value = .null) && !decide (value = .str "") && !isEmptyArray value
  else if value = .null then false
  else
    let stringValue := jsToLowerCase (jsToString value)
    let stringFilterValue := jsToLowerCase (jsToString filterValue)
    match filter.operator with
    | .equals =>
      if dataType = some .number ∨ dataType = some .currency then
        jsNumEqb value filterValue
      else if dataType = some .boolean then
        decide (value = filterValue)
      else if dataType = some .date then
        decide (dayString value = dayString filterValue)
      else decide (stringValue = stringFilterValue)
    | .notEquals =>
      if dataType = some .number ∨ dataType = some .currency then
        jsNumNeb value filterValue
      else if dataType = some .boolean then
        decide (value ≠ filterValue)
      else decide (stringValue ≠ stringFilterValue)
    | .contains => strIncludes stringValue stringFilterValue
    | .notContains => !strIncludes stringValue stringFilterValue
    | .startsWith => List.isPrefixOf stringFilterValue.toList stringValue.toList
    | .endsWith => List.isPrefixOf stringFilterValue.toList.reverse stringValue.toList.reverse
    | .gt =>
      if dataType = some .date then optGt (toDateMs value) (toDateMs filterValue)
      else optGt (jsNumber value) (jsNumber filterValue)
    | .gte =>
      if dataType = some .date then optGe (toDateMs value) (toDateMs filterValue)
      else optGe (jsNumber value) (jsNumber filterValue)
    | .lt =>
      if dataType = some .date then optLt (toDateMs value) (toDateMs filterValue)
      else optLt (jsNumber value) (jsNumber filterValue)
    | .lte =>
      if dataType = some .date then optLe (toDateMs value) (toDateMs filterValue)
      else optLe (jsNumber value) (jsNumber filterValue)
    | .between =>
      match filterValue with
      | .arr [minV, maxV] =>
        if dataType = some .date then
          optGe (toDateMs value) (toDateMs minV) &&
            optLe (toDateMs value) (toDateMs maxV)
        else
          optGe (jsNumber value) (jsNumber minV) &&
            optLe (jsNumber value) (jsNumber maxV)
      | _ => false
    | .inList =>
      match filterValue with
      | .arr items => items.any (fun item => jsToLowerCase (jsToString item) == stringValue)
      | _ => false
    | .isEmpty => true
    | .isNotEmpty => true

/-- `filterData`: every active filter must match (AND semantics); a filter
whose column id is unknown is skipped. -/
def filterData (data : List Row) (columnFilters : List ColumnFilter)
    (columns : List TailGridColumn) : List Row :=
  if columnFilters.isEmpty then data
  else
    data.filter (fun row =>
      columnFilters.all (fun filter =>
        match columnMapGet columns filter.id with
        | none => true
        | some column => matchesFilter (getRowValue row column) filter column.dataType))

/-- `globalFilterData`: case-insensitive substring test across all
filterable columns (OR semantics); a blank search term returns the data
unchanged. -/
def globalFilterData (data : List Row) (globalFilter : String)
    (columns : List TailGridColumn) : List Row :=
  if globalFilter = "" ∨ jsTrim globalFilter = "" then data
  else
    let searchTerm := jsTrim (jsToLowerCase globalFilter)
    data.filter (fun row =>
      columns.any (fun column =>
        if column.enableFiltering = some false then false
        else
          let value := getRowValue row column
          if value = .null then false
          else strIncludes (jsToLowerCase (jsToString value)) searchTerm))

/-- `PaginationState` `{pageIndex, pageSize}`. -/
structure PaginationState where
  pageIndex : Int
  pageSize : Int
deriving DecidableEq

/-- `Array.prototype.slice(start, end)` with integer arguments: negative
indices count from the end, and both are clamped into the array. -/
def jsSlice {α : Type} (l : List α) (start stop : Int) : List α :=
  let len : Int := l.length
  let s := if start < 0 then max (len + start) 0 else min start len
  let e := if stop < 0 then max (len + stop) 0 else min stop len
  (l.drop s.toNat).take (e - s).toNat

/-- `paginateData`: `data.slice(pageIndex*pageSize, pageIndex*pageSize +
pageSize)`. -/
def paginateData {α : Type} (data : List α) (pagination : PaginationState) :
    List α :=
  jsSlice data (pagination.pageIndex * pagination.pageSize)
    (pagination.pageIndex * pagination.pageSize + pagination.pageSize)

/-- `Math.ceil(a / b)` on integers.  For `b = 0` JS produces
`Infinity`/`NaN`; that case is modelled as 0, and every theorem that
consumes a `pageCount` works with a positive page size. -/
def ceilDivInt (a b : Int) : Int :=
  if b = 0 then 0 else -(Int.fdiv (-a) b)

/-- `PaginationInfo`: pagination state plus derived page metadata. -/
structure PaginationInfo where
  pageIndex : Int
  pageSize : Int
  pageCount : Int
  totalRows : Nat
  canPreviousPage : Bool
  canNextPage : Bool
deriving DecidableEq

/-- `getPaginationInfo`: `pageCount = Math.ceil(totalRows / pageSize)`,
`canPreviousPage = pageIndex > 0`, `canNextPage = pageIndex < pageCount -
1`. -/
def getPaginationInfo (totalRows : Nat) (pagination : PaginationState) :
    PaginationInfo :=
  let pageCount := ceilDivInt totalRows pagination.pageSize
  { pageIndex := pagination.pageIndex
    pageSize := pagination.pageSize
    pageCount := pageCount
    totalRows := totalRows
    canPreviousPage := decide (0 < pagination.pageIndex)
    canNextPage := decide (pagination.pageIndex < pageCount - 1) }

/-- `RowSelection`: the JS object mapping row id to selected flag,
modelled as an association list in insertion order. -/
abbrev RowSelection := List (String × Bool)

/-- The private mutable state of a `GridEngine` instance, with the
constructor's default values. -/
structure GridEngineState where
  data : List Row
  columns : List TailGridColumn
  sorting : SortingState := []
  columnFilters : List ColumnFilter := []
  globalFilter : String := ""
  pagination : PaginationState := ⟨0, 10⟩
  rowSelection : RowSelection := []
  columnSizing : List (String × Int) := []
  resizingColumnId : Option String := none
  enableSorting : Bool := true
  enableFiltering : Bool := true
  enablePagination : Bool := false
  enableRowSelection : Bool := false
  enableMultiRowSelection : Bool := true
  getRowId : Row → Nat → String := fun _ index => toString index

/-- `getFilteredRows()`: global filter (when truthy, i.e. non-empty) then
column filters (when any). -/
def GridEngineState.getFilteredRows (s : GridEngineState) : List Row :=
  let result := s.data
  let result :=
    if s.globalFilter ≠ "" then globalFilterData result s.globalFilter s.columns
    else result
  if 0 < s.columnFilters.length then filterData result s.columnFilters s.columns
  else result

/-- `getSortedRows()`: sort the filtered rows when a sorting spec is
active. -/
def GridEngineState.getSortedRows (s : GridEngineState) : List Row :=
  let filtered := s.getFilteredRows
  if 0 < s.sorting.length then sortData filtered s.sorting s.columns
  else filtered

/-- `getPaginatedRows()`: slice the sorted rows by the pagination state
when pagination is enabled. -/
def GridEngineState.getPaginatedRows (s : GridEngineState) : List Row :=
  let sorted := s.getSortedRows
  if s.enablePagination then paginateData sorted s.pagination
  else sorted

/-- `toggleSort(columnId, multi)`: unknown or sorting-disabled column is a
no-op; otherwise cycle the column none → ascending → descending → removed,
where only the "add new sort" branch consults `multi`. -/
def GridEngineState.toggleSort (s : GridEngineState) (columnId : String)
    (multi : Bool) : GridEngineState :=
  match s.columns.find? (fun c => c.id == columnId) with
  | none => s
  | some column =>
    if column.enableSorting = some false then s
    else
      match s.sorting.find? (fun e => e.id == columnId) with
      | none =>
        if multi then { s with sorting := s.sorting ++ [⟨columnId, false⟩] }
        else { s with sorting := [⟨columnId, false⟩] }
      | some existing =>
        if !existing.desc then
          { s with
            sorting := s.sorting.map (fun e =>
              if e.id == columnId then { e with desc := true } else e) }
        else
          { s with sorting := s.sorting.filter (fun e => !(e.id == columnId)) }

/-- `toggleRowSelection(rowId)`: flips the flag under `rowId` (multi mode)
or swaps the singleton selection (single mode).  The row id is never
checked against the data. -/
def GridEngineState.toggleRowSelection (s : GridEngineState) (rowId : String) :
    GridEngineState :=
  if !s.enableRowSelection then s
  else
    let isSelected := (jsObjGet s.rowSelection rowId).getD false
    if s.enableMultiRowSelection then
      { s with rowSelection := jsObjSet s.rowSelection rowId (!isSelected) }
    else
      { s with rowSelection := if isSelected then [] else [(rowId, true)] }

/-- The `allRows.every((row, index) => rowSelection[getRowId(row, index)])`
test of `toggleAllRowsSelection`/`getIsAllRowsSelected`, over the sorted
and filtered rows. -/
def GridEngineState.allRowsSelected (s : GridEngineState) : Bool :=
  (s.getSortedRows.enum).all (fun p =>
    (jsObjGet s.rowSelection (s.getRowId p.2 p.1)).getD false)

/-- The row ids of the currently visible (sorted+filtered) rows, in view
order. -/
def GridEngineState.sortedRowIds (s : GridEngineState) : List String :=
  (s.getSortedRows.enum).map (fun p => s.getRowId p.2 p.1)

/-- `toggleAllRowsSelection()`: requires row selection and multi selection;
when every visible row is selected the selection becomes `{}`, otherwise
the selection is replaced by a fresh object holding exactly the visible
rows. -/
def GridEngineState.toggleAllRowsSelection (s : GridEngineState) :
    GridEngineState :=
  if !s.enableRowSelection || !s.enableMultiRowSelection then s
  else if s.allRowsSelected then { s with rowSelection := [] }
  else
    { s with
      rowSelection := (s.getSortedRows.enum).map (fun p =>
        (s.getRowId p.2 p.1, true)) }

/-- `getIsAllRowsSelected()`: false on an empty view, else the every-row
test against the sorted+filtered rows. -/
def GridEngineState.getIsAllRowsSelected (s : GridEngineState) : Bool :=
  if s.getSortedRows.length = 0 then false
  else
    (s.getSortedRows.enum).all (fun p =>
      (jsObjGet s.rowSelection (s.getRowId p.2 p.1)).getD false)

/-- The engine's `getPaginationInfo()`: derived from the sorted+filtered
row count. -/
def GridEngineState.getPaginationInfo (s : GridEngineState) : PaginationInfo :=
  TailGrid.getPaginationInfo s.getSortedRows.length s.pagination

/-- `setPageIndex(index)`: applies the index only when `0 <= index <
pageCount`; anything else leaves the state untouched. -/
def GridEngineState.setPageIndex (s : GridEngineState) (index : Int) :
    GridEngineState :=
  let info := s.getPaginationInfo
  if 0 ≤ index ∧ index < info.pageCount then
    { s with pagination := { s.pagination with pageIndex := index } }
  else s

/-- `setPageSize(size)`: sets the page size and resets `pageIndex` to 0. -/
def GridEngineState.setPageSize (s : GridEngineState) (size : Int) :
    GridEngineState :=
  { s with pagination := { pageSize := size, pageIndex := 0 } }

/-- `setColumnSize(columnId, size)`: unknown column is a no-op; otherwise
the size is clamped to `[minWidth ?? 50, maxWidth ?? 500]` and stored. -/
def GridEngineState.setColumnSize (s : GridEngineState) (columnId : String)
    (size : Int) : GridEngineState :=
  match s.columns.find? (fun c => c.id == columnId) with
  | none => s
  | some column =>
    let minSize := column.minWidth.getD 50
    let maxSize := column.maxWidth.getD 500
    let clampedSize := max minSize (min maxSize size)
    { s with columnSizing := jsObjSet s.columnSizing columnId clampedSize }

/-- The AI-facing `ColumnSchema` projection of a column. -/
structure ColumnSchema where
  id : String
  name : String
  type : DataType
  examples : List String := []
  description : Option String := none

/-- `PromptContext` for a query. -/
structure PromptContext where
  query : String
  columns : List ColumnSchema
  context : Option String := none

/-- The system/user prompt pair handed to a provider. -/
structure SystemUserPrompt where
  system : String
  user : String
deriving DecidableEq

/-- The literal of a column's `type` field. -/
def dataTypeName : DataType → String
  | .string => "string"
  | .number => "number"
  | .date => "date"
  | .boolean => "boolean"
  | .currency => "currency"

/-- One line of the system prompt's column listing (`description` and
`examples` appended when truthy / non-empty; at most 3 examples). -/
def columnDescription (col : ColumnSchema) : String :=
  let desc := "- \"" ++ col.id ++ "\" (" ++ dataTypeName col.type ++ "): " ++ col.name
  let desc :=
    match col.description with
    | some d => if d = "" then desc else desc ++ " - " ++ d
    | none => desc
  if 0 < col.examples.length then
    desc ++ " (examples: " ++ String.intercalate ", " (col.examples.take 3) ++ ")"
  else desc

/-- `generateSystemPrompt`: the column schema listing, the operator
catalogue, the JSON output contract, and the rules. -/
def generateSystemPrompt (columns : List ColumnSchema) : String :=
  "You are a data grid query parser. Your job is to convert natural language queries into structured filter and sort operations.\n\nAvailable columns:\n"
    ++ String.intercalate "\n" (columns.map columnDescription)
    ++ "\n\nAvailable filter operators:\n- equals: Exact match\n- notEquals: Not equal\n- contains: Contains substring (strings only)\n- notContains: Does not contain (strings only)\n- startsWith: Starts with (strings only)\n- endsWith: Ends with (strings only)\n- gt: Greater than (numbers/dates)\n- gte: Greater than or equal (numbers/dates)\n- lt: Less than (numbers/dates)\n- lte: Less than or equal (numbers/dates)\n- between: Between two values (numbers/dates)\n- inList: Value in list\n- isEmpty: Value is empty/null\n- isNotEmpty: Value is not empty/null\n\nRespond with ONLY valid JSON in this exact format:\n\x7b\n  \"filters\": [\n    \x7b \"id\": \"column_id\", \"operator\": \"equals\", \"value\": \"some value\" \x7d\n  ],\n  \"sorting\": [\n    \x7b \"id\": \"column_id\", \"desc\": false \x7d\n  ],\n  \"confidence\": 0.95\n\x7d\n\nRules:\n1. Only use columns that exist in the schema\n2. Use appropriate operators for each data type\n3. For dates, use ISO format (YYYY-MM-DD)\n4. For numbers, use numeric values (not strings)\n5. Confidence should be 0-1 based on how certain you are about the interpretation\n6. If the query is unclear or cannot be parsed, return empty arrays with low confidence\n7. Do not include any explanation, only the JSON object"

/-- `generateUserPrompt`: the query wrapped in the fixed template. -/
def generateUserPrompt (query : String) : String :=
  "Parse this query: \"" ++ query ++ "\""

/-- `generatePromptContext`: both prompts for a query over a schema. -/
def generatePromptContext (context : PromptContext) : SystemUserPrompt :=
  { system := generateSystemPrompt context.columns
    user := generateUserPrompt context.query }

/-- Parsed JSON values (the output side of `JSON.parse`). -/
inductive Json where
  | null
  | bool (b : Bool)
  | num (q : Rat)
  | str (s : String)
  | arr (elems : List Json)
  | obj (fields : List (String × Json))

/-- Whitespace skipped by the JSON grammar. -/
def skipWs (cs : List Char) : List Char :=
  cs.dropWhile (fun c => c = ' ' || c = '\n' || c = '\t' || c = '\r')

/-- The characters `"\/bfnrt` map to their escaped character; `\uXXXX` is
not modelled (a response using it fails to parse in the model where JS
would succeed; no claim involves such responses). -/
def escapeChar (c : Char) : Option Char :=
  if c = '"' then some '"'
  else if c = '\\' then some '\\'
  else if c = '/' then some '/'
  else if c = 'b' then some (Char.ofNat 8)
  else if c = 'f' then some (Char.ofNat 12)
  else if c = 'n' then some '\n'
  else if c = 'r' then some '\r'
  else if c = 't' then some '\t'
  else none

/-- Scan a JSON string body up to the closing quote. -/
def parseStringChars (acc : List Char) : List Char → Option (String × List Char)
  | [] => none
  | '"' :: rest => some (String.mk acc.reverse, rest)
  | '\\' :: rest =>
    match rest with
    | [] => none
    | e :: r =>
      match escapeChar e with
      | some ec => parseStringChars (ec :: acc) r
      | none => none
  | c :: rest => parseStringChars (c :: acc) rest

/-- Parse a JSON number (integer part and optional fraction; exponents are
not modelled — see `escapeChar` for the convention on unmodelled corners of
the grammar). -/
def parseJsonNumber (cs : List Char) : Option (Rat × List Char) :=
  let negAndRest : Bool × List Char :=
    match cs with
    | '-' :: rest => (true, rest)
    | _ => (false, cs)
  let neg := negAndRest.1
  let ip := negAndRest.2.span (fun c => c.isDigit)
  if ip.1.isEmpty then none
  else
    match ip.2 with
    | '.' :: rest =>
      let fp := rest.span (fun c => c.isDigit)
      if fp.1.isEmpty then none
      else
        let mag : Rat := (digitsToNat ip.1 : Rat) +
          (digitsToNat fp.1 : Rat) / ((10 : Rat) ^ fp.1.length)
        some (if neg then -mag else mag, fp.2)
    | rest =>
      some (if neg then -(digitsToNat ip.1 : Rat) else (digitsToNat ip.1 : Rat), rest)

mutual

/-- Fuel-driven recursive-descent JSON value parser. -/
def parseJsonVal : Nat → List Char → Option (Json × List Char)
  | 0, _ => none
  | Nat.succ fuel, cs0 =>
    let cs := skipWs cs0
    match cs with
    | [] => none
    | c :: rest =>
      if c = 'n' then
        match rest with
        | 'u' :: 'l' :: 'l' :: r => some (.null, r)
        | _ => none
      else if c = 't' then
        match rest with
        | 'r' :: 'u' :: 'e' :: r => some (.bool true, r)
        | _ => none
      else if c = 'f' then
        match rest with
        | 'a' :: 'l' :: 's' :: 'e' :: r => some (.bool false, r)
        | _ => none
      else if c = '"' then
        (parseStringChars [] rest).map (fun p => (.str p.1, p.2))
      else if c = '[' then
        match skipWs rest with
        | ']' :: r => some (.arr [], r)
        | r => parseJsonArrTail fuel [] r
      else if c = Char.ofNat 123 then
        match skipWs rest with
        | d :: r =>
          if d = Char.ofNat 125 then some (.obj [], r)
          else parseJsonObjTail fuel [] (d :: r)
        | [] => none
      else if c = '-' || c.isDigit then
        (parseJsonNumber cs).map (fun p => (.num p.1, p.2))
      else none

/-- Array elements: value, then `,` and more elements or `]`. -/
def parseJsonArrTail : Nat → List Json → List Char →
    Option (Json × List Char)
  | 0, _, _ => none
  | Nat.succ fuel, acc, cs =>
    match parseJsonVal fuel cs with
    | none => none
    | some (v, rest) =>
      match skipWs rest with
      | ',' :: r => parseJsonArrTail fuel (v :: acc) r
      | ']' :: r => some (.arr (v :: acc).reverse, r)
      | _ => none

/-- Object members: `"key": value`, then `,` and more members or the
closing brace. -/
def parseJsonObjTail : Nat → List (String × Json) → List Char →
    Option (Json × List Char)
  | 0, _, _ => none
  | Nat.succ fuel, acc, cs =>
    match skipWs cs with
    | '"' :: rest =>
      match parseStringChars [] rest with
      | none => none
      | some (key, afterKey) =>
        match skipWs afterKey with
        | ':' :: afterColon =>
          match parseJsonVal fuel afterColon with
          | none => none
          | some (v, rest2) =>
            match skipWs rest2 with
            | ',' :: r => parseJsonObjTail fuel ((key, v) :: acc) r
            | d :: r =>
              if d = Char.ofNat 125 then some (.obj ((key, v) :: acc).reverse, r)
              else none
            | [] => none
        | _ => none
    | _ => none

end

/-- `JSON.parse`: the whole (trailing-whitespace-trimmed) input must be one
JSON value; `none` models the thrown `SyntaxError`. -/
def jsonParse (s : String) : Option Json :=
  match parseJsonVal (s.length + 8) s.toList with
  | some (j, rest) => if skipWs rest = [] then some j else none
  | none => none

/-- `response.match(/\x7b[\s\S]*\x7d/)`: the regex matches from the
leftmost open brace that still has a close brace after it, greedily up to
the last close brace of the whole string; `none` when no such span
exists. -/
def extractJson (s : String) : Option String :=
  let cs := s.toList
  match cs.findIdx? (fun c => c = Char.ofNat 123) with
  | none => none
  | some i =>
    match (cs.reverse).findIdx? (fun c => c = Char.ofNat 125) with
    | none => none
    | some k =>
      let j := cs.length - 1 - k
      if i < j then some (String.mk ((cs.drop i).take (j - i + 1)))
      else none

/-- The `ColumnFilter` of `@tailgrid/core` as instantiated by the AI
module: its `value: unknown` carries the parsed JSON value. -/
structure AIColumnFilter where
  id : String
  operator : FilterOperator
  value : Json

/-- The payload shape `z.infer<typeof AIOutputSchema>`. -/
structure AIOutput where
  filters : List AIColumnFilter
  sorting : List SortConfig
  confidence : Rat

/-- `FilterOperatorSchema`: membership in the 14-value enum. -/
def operatorOfString : String → Option FilterOperator
  | "equals" => some .equals
  | "notEquals" => some .notEquals
  | "contains" => some .contains
  | "notContains" => some .notContains
  | "startsWith" => some .startsWith
  | "endsWith" => some .endsWith
  | "gt" => some .gt
  | "gte" => some .gte
  | "lt" => some .lt
  | "lte" => some .lte
  | "between" => some .between
  | "inList" => some .inList
  | "isEmpty" => some .isEmpty
  | "isNotEmpty" => some .isNotEmpty
  | _ => none

/-- `ColumnFilterSchema`: an object with a string `id`, an enum `operator`
and an arbitrary `value` (`z.unknown()` also accepts a missing key, which
is modelled as JSON null).  Zod's structured error messages are modelled by
fixed non-empty descriptions throughout. -/
def validateFilter (j : Json) : Except String AIColumnFilter :=
  match j with
  | .obj fields =>
    match jsObjGet fields "id", jsObjGet fields "operator" with
    | some (.str id), some (.str op) =>
      match operatorOfString op with
      | some o => .ok ⟨id, o, (jsObjGet fields "value").getD .null⟩
      | none => .error "invalid enum value for operator"
    | _, _ => .error "expected string id and enum operator in filter"
  | _ => .error "expected filter object"

/-- `SortConfigSchema`: an object with a string `id` and a boolean
`desc`. -/
def validateSort (j : Json) : Except String SortConfig :=
  match j with
  | .obj fields =>
    match jsObjGet fields "id", jsObjGet fields "desc" with
    | some (.str id), some (.bool d) => .ok ⟨id, d⟩
    | _, _ => .error "expected string id and boolean desc in sorting"
  | _ => .error "expected sorting object"

/-- `AIOutputSchema.safeParse`: an object carrying a `filters` array, a
`sorting` array, and a `confidence` number within `[0, 1]`; unknown extra
keys are stripped, any other shape fails. -/
def aiOutputSafeParse (j : Json) : Except String AIOutput :=
  match j with
  | .obj fields =>
    match jsObjGet fields "filters", jsObjGet fields "sorting",
        jsObjGet fields "confidence" with
    | some (.arr fs), some (.arr ss), some (.num c) =>
      match fs.mapM validateFilter, ss.mapM validateSort with
      | .ok filters, .ok sorting =>
        if 0 ≤ c ∧ c ≤ 1 then .ok ⟨filters, sorting, c⟩
        else .error "confidence out of range"
      | .error e, _ => .error e
      | .ok _, .error e => .error e
    | _, _, _ => .error "missing or invalid filters, sorting, or confidence"
  | _ => .error "expected object"

/-- `AIQueryResult`. -/
structure AIQueryResult where
  filters : List AIColumnFilter
  sorting : List SortConfig
  query : String
  confidence : Rat
  error : Option String := none
  rawResponse : Option String := none

/-- `parseAIResponse`: extract a JSON span, `JSON.parse` it (a throw is
caught by the function's own try/catch — `SyntaxError` messages are
engine-specific but always non-empty, modelled by a fixed message),
validate with the Zod schema, and map the validated payload; every failure
returns a zero-confidence result carrying `error` and the raw text. -/
def parseAIResponse (response : String) (query : String) : AIQueryResult :=
  match extractJson response with
  | none =>
    { filters := [], sorting := [], query := query, confidence := 0
      error := some "No JSON found in response", rawResponse := some response }
  | some span =>
    match jsonParse span with
    | none =>
      { filters := [], sorting := [], query := query, confidence := 0
        error := some "Unexpected token in JSON", rawResponse := some response }
    | some j =>
      match aiOutputSafeParse j with
      | .error msg =>
        { filters := [], sorting := [], query := query, confidence := 0
          error := some ("Validation failed: " ++ msg)
          rawResponse := some response }
      | .ok output =>
        { filters := output.filters.map (fun f => ⟨f.id, f.operator, f.value⟩)
          sorting := output.sorting.map (fun x => ⟨x.id, x.desc⟩)
          query := query, confidence := output.confidence
          error := none, rawResponse := some response }

/-- The behaviour of a provider's `callAPI` at its boundary, as observed by
`BaseAIProvider.parseQuery`: it resolves with a raw response string, or it
throws an `Error` carrying a message, or it throws a non-`Error` value. -/
inductive CallOutcome where
  | ok (response : String)
  | throwError (message : String)
  | throwNonError

/-- `BaseAIProvider.parseQuery`: builds the prompt pair (outside the try
block), invokes `callAPI` (abstracted here by its outcome, since transport
is provider-specific network code), parses a resolved response, and
converts any thrown exception into a zero-confidence result whose `error`
is `error instanceof Error ? error.message : 'Unknown error'`. -/
def parseQuery (outcome : CallOutcome) (query : String)
    (schema : List ColumnSchema) : AIQueryResult :=
  let _prompts := generatePromptContext { query := query, columns := schema }
  match outcome with
  | .ok response => parseAIResponse response query
  | .throwError message =>
    { filters := [], sorting := [], query := query, confidence := 0
      error := some message, rawResponse := none }
  | .throwNonError =>
    { filters := [], sorting := [], query := query, confidence := 0
      error := some "Unknown error", rawResponse := none }

/-- Concatenation of the pages `f 0 ++ f 1 ++ ... ++ f (n-1)` (the
"concatenating all pages" notion of the pagination round-trip). -/
def concatPages {α : Type} (f : Nat → List α) : Nat → List α
  | 0 => []
  | n + 1 => concatPages f n ++ f n

/-- A numeric column reading field "x" (example data). -/
def colX : TailGridColumn :=
  { id := "x", accessorKey := some "x", dataType := some .number }

/-- A row with a defined "x" (example data). -/
def rowDefX : Row := [("x", .num 1)]

/-- A row with a null "x" (example data). -/
def rowNullX : Row := [("x", .null)]

/-- A caller-supplied `getRowId` reading the row's "id" field (example
data). -/
def rowIdField (r : Row) (_ : Nat) : String :=
  match jsObjGet r "id" with
  | some (.str s) => s
  | _ => "?"

/-- A numeric column reading field "v" (example data). -/
def colV : TailGridColumn :=
  { id := "v", accessorKey := some "v", dataType := some .number }

/-- Example row with id "r1". -/
def rowR1 : Row := [("id", .str "r1"), ("v", .num 1)]

/-- Example row with id "r2". -/
def rowR2 : Row := [("id", .str "r2"), ("v", .num 2)]

/-- Engine state where a filter hides row "r2", and "r2" (only) is
selected. -/
def sHiddenSel : GridEngineState :=
  { data := [rowR1, rowR2], columns := [colV]
    columnFilters := [⟨"v", .equals, .num 1⟩]
    rowSelection := [("r2", true)]
    enableRowSelection := true
    getRowId := rowIdField }

/-- Engine state with one row, no columns, selection enabled. -/
def sOneRow : GridEngineState :=
  { data := [rowR1], columns := [], enableRowSelection := true
    getRowId := rowIdField }

/-- Engine state already sorted by two columns "a" and "b" (both
ascending). -/
def sTwoSorts : GridEngineState :=
  { data := [], columns := [{ id := "a" }, { id := "b" }]
    sorting := [⟨"a", false⟩, ⟨"b", false⟩] }

/-- Engine state with three rows, page size 1, currently on page 2. -/
def sThreePages : GridEngineState :=
  { data := [rowR1, rowR2, [("id", .str "r3")]], columns := []
    pagination := ⟨2, 1⟩ }

/-- Engine state with no rows at all. -/
def sNoRows : GridEngineState := { data := [], columns := [] }

/-! Helper lemmas about the JS-object model. -/

theorem jsObjGet_cons_ne {α : Type} (p : String × α) (t : List (String × α))
    (k : String) (h : (p.1 == k) = false) :
    jsObjGet (p :: t) k = jsObjGet t k := by
  simp [jsObjGet, List.find?_cons, h]

theorem find?_map_set_self {α : Type} (t : List (String × α)) (k : String)
    (v : α) :
    List.find? (fun p => p.1 == k)
        (t.map (fun q => if q.1 == k then (k, v) else q)) =
      (List.find? (fun p => p.1 == k) t).map (fun _ => (k, v)) := by
  rw [List.find?_map]
  have hfun : ((fun p => p.1 == k) ∘ fun q : String × α =>
      if q.1 == k then (k, v) else q) = fun q : String × α => q.1 == k := by
    funext q
    by_cases h : q.1 = k
    · simp [h]
    · simp [h]
  rw [hfun]
  cases hf : List.find? (fun p : String × α => p.1 == k) t with
  | none => rfl
  | some a =>
    have ha : a.1 = k := by simpa using List.find?_some hf
    simp [ha]

theorem jsObjGet_jsObjSet {α : Type} (l : List (String × α)) (k : String)
    (v : α) : jsObjGet (jsObjSet l k v) k = some v := by
  unfold jsObjSet
  by_cases hs : (l.find? (fun p => p.1 == k)).isSome
  · rw [if_pos hs]
    unfold jsObjGet
    rw [find?_map_set_self]
    obtain ⟨a, ha⟩ := Option.isSome_iff_exists.mp hs
    rw [ha]
    rfl
  · rw [if_neg hs]
    unfold jsObjGet
    rw [List.find?_append, Option.not_isSome_iff_eq_none.mp hs]
    simp [List.find?_cons]

theorem jsObjGet_map_true (ids : List String) (rid : String) :
    jsObjGet (ids.map (fun i => (i, true))) rid =
      if rid ∈ ids then some true else none := by
  induction ids with
  | nil => simp [jsObjGet]
  | cons i t ih =>
    by_cases h : i = rid
    · subst h
      simp [jsObjGet, List.find?_cons]
    · rw [List.map_cons, jsObjGet_cons_ne _ _ _ (by simp [h]), ih]
      have hne : ¬ rid = i := fun hh => h hh.symm
      by_cases hm : rid ∈ t
      · simp [hm, List.mem_cons]
      · simp [hm, List.mem_cons, hne]

/-! C10: empty view is never "all selected". -/

/-- C10: when the current filtered+sorted row set is empty,
`getIsAllRowsSelected` returns false (never vacuously true), for every
selection state. -/
theorem getIsAllRowsSelected_empty (s : GridEngineState)
    (h : s.getSortedRows = []) : s.getIsAllRowsSelected = false := by
  unfold GridEngineState.getIsAllRowsSelected
  rw [h]
  simp

/-- Witness for C10 at a concrete engine state with no rows. -/
theorem getIsAllRowsSelected_empty_witness :
    sNoRows.getIsAllRowsSelected = false :=
  getIsAllRowsSelected_empty sNoRows rfl

/-! C7: the user prompt is the query wrapped in a fixed template, not the
verbatim query. -/

/-- C7 counterexample: the user prompt differs from the raw query (the
template adds text around it). -/
theorem generateUserPrompt_not_verbatim :
    generateUserPrompt "show admins" ≠ "show admins" := by decide

/-- C7 (amended): for every query and schema, the user prompt sent to the
provider is the query embedded verbatim inside the fixed template
`Parse this query: "<query>"`; it is never the bare query itself. -/
theorem generateUserPrompt_template (q : String) (cols : List ColumnSchema) :
    (generatePromptContext { query := q, columns := cols }).user =
      "Parse this query: \"" ++ q ++ "\"" ∧
    (generatePromptContext { query := q, columns := cols }).user ≠ q := by
  constructor
  · rfl
  · intro h
    rw [show (generatePromptContext { query := q, columns := cols }).user =
        "Parse this query: \"" ++ q ++ "\"" from rfl] at h
    have hl := congrArg String.length h
    rw [String.length_append, String.length_append] at hl
    have e1 : ("Parse this query: \"" : String).length = 19 := by decide
    have e2 : ("\"" : String).length = 1 := by decide
    omega

/-- Witness for C7 at a concrete query. -/
theorem generateUserPrompt_template_witness :
    (generatePromptContext { query := "x", columns := [] }).user =
      "Parse this query: \"x\"" :=
  (generateUserPrompt_template "x" []).1

/-! C8: setPageIndex is a guarded update (ignore out-of-range), not a
clamp; setPageSize resets the page index. -/

/-- C8 counterexample: with 3 rows and page size 1 (pageCount 3) on page 2,
`setPageIndex(-1)` leaves `pageIndex` at 2, where clamping into
`[0, pageCount-1]` would give 0. -/
theorem setPageIndex_out_of_range_ignored :
    sThreePages.pagination.pageIndex = 2 ∧
    sThreePages.getPaginationInfo.pageCount = 3 ∧
    (sThreePages.setPageIndex (-1)).pagination.pageIndex = 2 ∧
    (sThreePages.setPageIndex (-1)).pagination.pageIndex ≠ 0 := by
  decide

/-- C8 (amended): `setPageIndex` applies the requested index exactly when
`0 ≤ index < pageCount` (computed against the filtered+sorted row count)
and otherwise leaves the whole state unchanged — out-of-range requests are
ignored, not clamped; `setPageSize` sets the page size and resets
`pageIndex` to 0. -/
theorem setPageIndex_setPageSize_spec (s : GridEngineState) (index size : Int) :
    (0 ≤ index ∧ index < s.getPaginationInfo.pageCount →
      (s.setPageIndex index).pagination =
        { pageIndex := index, pageSize := s.pagination.pageSize }) ∧
    (¬(0 ≤ index ∧ index < s.getPaginationInfo.pageCount) →
      s.setPageIndex index = s) ∧
    (s.setPageSize size).pagination = { pageIndex := 0, pageSize := size } := by
  refine ⟨fun h => ?_, fun h => ?_, rfl⟩
  · simp [GridEngineState.setPageIndex, h]
  · simp [GridEngineState.setPageIndex, h]

/-- Witness for C8: an in-range request is applied. -/
theorem setPageIndex_setPageSize_spec_witness :
    (sThreePages.setPageIndex 1).pagination = { pageIndex := 1, pageSize := 1 } :=
  (setPageIndex_setPageSize_spec sThreePages 1 5).1 (by decide)

/-! C5: unknown column ids are no-ops for toggleSort and setColumnSize,
but toggleRowSelection records any row id it is given. -/

/-- C5 counterexample: toggling selection of a row id absent from the data
is not a no-op — the unknown id is recorded in the selection map. -/
theorem toggleRowSelection_unknown_id_mutates :
    sOneRow.rowSelection = [] ∧
    (sOneRow.toggleRowSelection "zzz").rowSelection = [("zzz", true)] ∧
    (sOneRow.toggleRowSelection "zzz").rowSelection ≠ sOneRow.rowSelection := by
  decide

/-- C5 (amended): `toggleSort` and `setColumnSize` with a column id not
present in the engine's columns return the state unchanged (and, the
embedding being total, nothing is raised); `toggleRowSelection`, however,
never checks its row id against the data: with selection enabled (multi
mode) it records an entry under the given id, known or not. -/
theorem unknown_id_operations (s : GridEngineState) (cid : String)
    (multi : Bool) (sz : Int) (rid : String)
    (hcol : s.columns.find? (fun c => c.id == cid) = none) :
    s.toggleSort cid multi = s ∧
    s.setColumnSize cid sz = s ∧
    (s.enableRowSelection = true → s.enableMultiRowSelection = true →
      jsObjGet (s.toggleRowSelection rid).rowSelection rid =
        some (!(jsObjGet s.rowSelection rid).getD false)) := by
  refine ⟨?_, ?_, fun h1 h2 => ?_⟩
  · unfold GridEngineState.toggleSort
    rw [hcol]
  · unfold GridEngineState.setColumnSize
    rw [hcol]
  · unfold GridEngineState.toggleRowSelection
    rw [h1, h2]
    simp [jsObjGet_jsObjSet]

/-- Witness for C5 at a concrete engine state (columns empty, so any id is
unknown). -/
theorem unknown_id_operations_witness :
    sOneRow.toggleSort "nope" true = sOneRow ∧
    sOneRow.setColumnSize "nope" 100 = sOneRow ∧
    jsObjGet (sOneRow.toggleRowSelection "zzz").rowSelection "zzz" =
      some true := by
  obtain ⟨h1, h2, h3⟩ := unknown_id_operations sOneRow "nope" true 100 "zzz" rfl
  exact ⟨h1, h2, (h3 rfl rfl).trans (by decide)⟩

/-! C2: toggleAllRowsSelection replaces the selection with exactly the
visible rows; hidden rows' selection entries are discarded. -/

/-- C2 counterexample: with "r2" hidden by a filter and selected,
toggling "select all" replaces the selection with exactly the visible row
"r1", so the hidden row's entry is not preserved. -/
theorem toggleAllRowsSelection_drops_hidden_selection :
    sHiddenSel.rowSelection = [("r2", true)] ∧
    sHiddenSel.toggleAllRowsSelection.rowSelection = [("r1", true)] ∧
    jsObjGet sHiddenSel.toggleAllRowsSelection.rowSelection "r2" ≠
      jsObjGet sHiddenSel.rowSelection "r2" := by
  decide

/-- C2 (amended): `toggleAllRowsSelection` computes "all selected" against
the currently filtered+sorted rows and, when not all of them are selected,
replaces the selection object with exactly the visible rows — an id is
selected in the result precisely when it is a visible row id, so entries of
rows hidden by the filters are discarded, not preserved; when all visible
rows are selected the entire selection (hidden entries included) is
cleared. -/
theorem toggleAllRowsSelection_selects_exactly_visible (s : GridEngineState)
    (h1 : s.enableRowSelection = true) (h2 : s.enableMultiRowSelection = true) :
    (s.allRowsSelected = true → s.toggleAllRowsSelection.rowSelection = []) ∧
    (s.allRowsSelected = false → ∀ rid : String,
      jsObjGet s.toggleAllRowsSelection.rowSelection rid =
        if rid ∈ s.sortedRowIds then some true else none) := by
  unfold GridEngineState.toggleAllRowsSelection
  rw [h1, h2]
  constructor
  · intro ha
    rw [ha]
    simp
  · intro ha rid
    rw [ha]
    simp only [Bool.not_true, Bool.or_self, Bool.false_eq_true, if_false,
      Bool.false_or]
    rw [show (s.getSortedRows.enum).map (fun p => (s.getRowId p.2 p.1, true)) =
        (s.sortedRowIds).map (fun i => (i, true)) by
      unfold GridEngineState.sortedRowIds
      rw [List.map_map]
      rfl]
    exact jsObjGet_map_true _ rid

/-- Witness for C2: after toggling, the visible row "r1" is selected. -/
theorem toggleAllRowsSelection_selects_exactly_visible_witness :
    jsObjGet sHiddenSel.toggleAllRowsSelection.rowSelection "r1" = some true := by
  have h := (toggleAllRowsSelection_selects_exactly_visible sHiddenSel rfl
    rfl).2 (by decide) "r1"
  rw [h]
  decide

/-! C3: the toggleSort cycle, and what multi=false does and does not
replace. -/

/-- C3 counterexample: with sorting `[a asc, b asc]`, `toggleSort("b",
multi=false)` advances b to descending in place — the result still has two
entries, not a single-entry spec containing only "b". -/
theorem toggleSort_single_not_replacing :
    (sTwoSorts.toggleSort "b" false).sorting = [⟨"a", false⟩, ⟨"b", true⟩] ∧
    (sTwoSorts.toggleSort "b" false).sorting.length ≠ 1 := by
  decide

theorem find?_sorting_map_toggle (l : SortingState) (cid : String) :
    List.find? (fun e => e.id == cid)
        (l.map (fun e => if e.id == cid then { e with desc := true } else e)) =
      (List.find? (fun e => e.id == cid) l).map
        (fun e => { e with desc := true }) := by
  rw [List.find?_map]
  have hfun : ((fun e : SortConfig => e.id == cid) ∘ fun e : SortConfig =>
      if e.id == cid then { e with desc := true } else e) =
      fun e : SortConfig => e.id == cid := by
    funext e
    by_cases h : e.id = cid
    · simp [h]
    · simp [h]
  rw [hfun]
  cases hf : List.find? (fun e : SortConfig => e.id == cid) l with
  | none => rfl
  | some a =>
    have ha : a.id = cid := by simpa using List.find?_some hf
    simp [ha]

theorem find?_sorting_map_other (l : SortingState) (cid cid2 : String) :
    List.find? (fun e => e.id == cid2)
        (l.map (fun e => if e.id == cid then { e with desc := true } else e)) =
      Option.map (fun e => if e.id == cid then { e with desc := true } else e)
        (List.find? (fun e => e.id == cid2) l) := by
  rw [List.find?_map]
  have hfun : ((fun e : SortConfig => e.id == cid2) ∘ fun e : SortConfig =>
      if e.id == cid then { e with desc := true } else e) =
      fun e : SortConfig => e.id == cid2 := by
    funext e
    by_cases h : e.id = cid
    · simp [h]
    · simp [h]
  rw [hfun]

theorem find?_sorting_filter_self (l : SortingState) (cid : String) :
    List.find? (fun e => e.id == cid)
      (l.filter (fun e => !(e.id == cid))) = none := by
  apply List.find?_eq_none.mpr
  intro a ha
  have h := (List.mem_filter.mp ha).2
  simp at h
  simp [h]

theorem find?_sorting_filter_other (l : SortingState) (cid cid2 : String)
    (hne : ¬ cid2 = cid) :
    List.find? (fun e => e.id == cid2)
        (l.filter (fun e => !(e.id == cid))) =
      List.find? (fun e => e.id == cid2) l := by
  induction l with
  | nil => rfl
  | cons e t ih =>
    by_cases h : e.id = cid
    · have hb : (e.id == cid2) = false := by
        rw [h]
        simp
        exact fun hh => hne hh.symm
      have hk : (!(e.id == cid)) = false := by simp [h]
      simp [List.filter_cons, hk, List.find?_cons, hb, ih]
    · have hk : (!(e.id == cid)) = true := by simp [h]
      by_cases h2 : e.id = cid2
      · have hb2 : (e.id == cid2) = true := by simp [h2]
        simp only [List.filter_cons, hk, if_true, List.find?_cons, hb2]
      · have hb2 : (e.id == cid2) = false := by simp [h2]
        simp only [List.filter_cons, hk, if_true, List.find?_cons, hb2]
        exact ih

theorem toggleSort_sorting_char (s : GridEngineState) (cid : String)
    (multi : Bool) (col : TailGridColumn)
    (hfind : s.columns.find? (fun c => c.id == cid) = some col)
    (hsort : ¬ col.enableSorting = some false) :
    (s.toggleSort cid multi).sorting =
      match s.sorting.find? (fun e => e.id == cid) with
      | none => if multi then s.sorting ++ [⟨cid, false⟩] else [⟨cid, false⟩]
      | some existing =>
        if !existing.desc then
          s.sorting.map (fun e =>
            if e.id == cid then { e with desc := true } else e)
        else s.sorting.filter (fun e => !(e.id == cid)) := by
  unfold GridEngineState.toggleSort
  simp only [hfind]
  rw [if_neg hsort]
  split
  · cases multi <;> rfl
  · rename_i e _
    cases he : e.desc <;> rfl

/-- C3 (amended): for a sortable column, `toggleSort` cycles that column
unsorted → ascending → descending → unsorted; with `multi=true` it
appends/updates without disturbing other entries; with `multi=false` it
replaces the whole spec with a single-column sort only when the column was
previously unsorted — when the column is already in the spec, the
ascending→descending and descending→removed transitions update in place
and leave all other entries unchanged regardless of `multi`. -/
theorem toggleSort_cycle_and_entries (s : GridEngineState) (cid : String)
    (multi : Bool) (col : TailGridColumn)
    (hfind : s.columns.find? (fun c => c.id == cid) = some col)
    (hsort : ¬ col.enableSorting = some false) :
    ((s.toggleSort cid multi).sorting.find? (fun e => e.id == cid) =
      match s.sorting.find? (fun e => e.id == cid) with
      | none => some ⟨cid, false⟩
      | some e => if e.desc then none else some ⟨cid, true⟩) ∧
    (∀ cid2, ¬ cid2 = cid → multi = true →
      (s.toggleSort cid multi).sorting.find? (fun e => e.id == cid2) =
        s.sorting.find? (fun e => e.id == cid2)) ∧
    (multi = false → s.sorting.find? (fun e => e.id == cid) = none →
      (s.toggleSort cid multi).sorting = [⟨cid, false⟩]) ∧
    (∀ cid2, ¬ cid2 = cid → s.sorting.find? (fun e => e.id == cid) ≠ none →
      (s.toggleSort cid multi).sorting.find? (fun e => e.id == cid2) =
        s.sorting.find? (fun e => e.id == cid2)) := by
  have hchar := toggleSort_sorting_char s cid multi col hfind hsort
  cases hex : s.sorting.find? (fun e => e.id == cid) with
  | none =>
    rw [hex] at hchar
    simp only [] at hchar
    refine ⟨?_, ?_, ?_, fun cid2 hne hnn => absurd rfl hnn⟩
    · rw [hchar]
      cases multi with
      | false => simp [List.find?_cons]
      | true =>
        rw [if_pos rfl, List.find?_append, hex]
        simp [List.find?_cons]
    · intro cid2 hne hmt
      subst hmt
      rw [hchar, if_pos rfl, List.find?_append]
      have hb : ((⟨cid, false⟩ : SortConfig).id == cid2) = false :=
        beq_eq_false_iff_ne.mpr (fun hh => hne hh.symm)
      have hsingle : List.find? (fun e => e.id == cid2)
          [(⟨cid, false⟩ : SortConfig)] = none := by
        simp only [List.find?_cons, hb]
        rfl
      rw [hsingle, Option.or_none]
    · intro hmf _
      subst hmf
      rw [hchar]
      simp
  | some e =>
    rw [hex] at hchar
    simp only [] at hchar
    have ha : e.id = cid := by simpa using List.find?_some hex
    cases hdesc : e.desc with
    | false =>
      rw [hdesc] at hchar
      simp only [Bool.not_false, if_true] at hchar
      have hother : ∀ cid2, ¬ cid2 = cid →
          List.find? (fun x => x.id == cid2) (s.sorting.map (fun x =>
            if x.id == cid then { x with desc := true } else x)) =
          List.find? (fun x => x.id == cid2) s.sorting := by
        intro cid2 hne
        rw [find?_sorting_map_other]
        cases hf2 : List.find? (fun x => x.id == cid2) s.sorting with
        | none => rfl
        | some a =>
          have ha2 : a.id = cid2 := by simpa using List.find?_some hf2
          have hb : ¬ a.id = cid := by
            rw [ha2]
            exact hne
          simp [hb]
      refine ⟨?_, fun cid2 hne _ => by rw [hchar]; exact hother cid2 hne, ?_,
        fun cid2 hne _ => by rw [hchar]; exact hother cid2 hne⟩
      · rw [hchar, find?_sorting_map_toggle, hex]
        obtain ⟨eid, edesc⟩ := e
        simp only at ha hdesc
        subst ha
        subst hdesc
        rfl
      · intro _ hnone
        exact absurd hnone (by simp)
    | true =>
      rw [hdesc] at hchar
      simp only [Bool.not_true, Bool.false_eq_true, if_false] at hchar
      refine ⟨?_, fun cid2 hne _ => by
          rw [hchar]
          exact find?_sorting_filter_other s.sorting cid cid2 hne, ?_,
        fun cid2 hne _ => by
          rw [hchar]
          exact find?_sorting_filter_other s.sorting cid cid2 hne⟩
      · rw [hchar, find?_sorting_filter_self]
        simp [hdesc]
      · intro _ hnone
        exact absurd hnone (by simp)

/-- Witness for C3: in the two-column state, toggling "b" advances it to
descending. -/
theorem toggleSort_cycle_and_entries_witness :
    (sTwoSorts.toggleSort "b" false).sorting.find? (fun e => e.id == "b") =
      some ⟨"b", true⟩ := by
  have h := (toggleSort_cycle_and_entries sTwoSorts "b" false { id := "b" }
    rfl (by decide)).1
  rw [h]
  decide

/-! C6: failure semantics of the AI parse pipeline. -/

/-- C6 counterexample: when the transport throws an `Error` whose message
is the empty string, `parseQuery` resolves with confidence 0 but its
`error` is the empty string — not a non-empty error. -/
theorem parseQuery_empty_error_message :
    (parseQuery (.throwError "") "q" []).confidence = 0 ∧
    (parseQuery (.throwError "") "q" []).error = some "" :=
  ⟨rfl, rfl⟩

/-- C6 (amended): `parseQuery` always resolves to an `AIQueryResult`
(totality of the embedding — nothing is raised to the caller).  A thrown
`Error` yields confidence 0 with `error` set to the exception's message —
which is empty exactly when that message is empty — and a non-`Error` throw
yields confidence 0 with error "Unknown error".  For every resolved
response: if no JSON object span is found the result is the zero-confidence
"No JSON found in response"; and in general every response either parses
cleanly (`error = none`) or produces confidence 0 with a non-empty error
(this covers JSON parse failures and schema validation failures such as a
missing `confidence` or an operator outside the 14-value enum). -/
theorem parseQuery_failure_semantics (q msg resp : String)
    (schema : List ColumnSchema) :
    ((parseQuery (.throwError msg) q schema).confidence = 0 ∧
      (parseQuery (.throwError msg) q schema).error = some msg) ∧
    ((parseQuery .throwNonError q schema).confidence = 0 ∧
      (parseQuery .throwNonError q schema).error = some "Unknown error") ∧
    (extractJson resp = none →
      (parseQuery (.ok resp) q schema).confidence = 0 ∧
      (parseQuery (.ok resp) q schema).error =
        some "No JSON found in response") ∧
    ((parseQuery (.ok resp) q schema).error = none ∨
      ((parseQuery (.ok resp) q schema).confidence = 0 ∧
        ∃ e, (parseQuery (.ok resp) q schema).error = some e ∧ e ≠ "")) := by
  have hok : parseQuery (.ok resp) q schema = parseAIResponse resp q := rfl
  have key : ∀ r : AIQueryResult, parseAIResponse resp q = r →
      r.error = none ∨ (r.confidence = 0 ∧ ∃ e, r.error = some e ∧ e ≠ "") := by
    intro r hr
    unfold parseAIResponse at hr
    split at hr
    · exact Or.inr ⟨by rw [← hr], "No JSON found in response",
        by rw [← hr], by decide⟩
    · split at hr
      · exact Or.inr ⟨by rw [← hr], "Unexpected token in JSON",
          by rw [← hr], by decide⟩
      · split at hr
        · rename_i m heq
          refine Or.inr ⟨by rw [← hr], "Validation failed: " ++ m,
            by rw [← hr], fun he => ?_⟩
          have hl := congrArg String.length he
          rw [String.length_append] at hl
          have e1 : ("Validation failed: " : String).length = 19 := by decide
          have e2 : ("" : String).length = 0 := by decide
          omega
        · exact Or.inl (by rw [← hr])
  have keyNone : extractJson resp = none →
      (parseAIResponse resp q).confidence = 0 ∧
      (parseAIResponse resp q).error = some "No JSON found in response" := by
    intro hx
    unfold parseAIResponse
    rw [hx]
    exact ⟨rfl, rfl⟩
  refine ⟨⟨rfl, rfl⟩, ⟨rfl, rfl⟩, fun hx => ?_, ?_⟩
  · rw [hok]
    exact keyNone hx
  · rw [hok]
    exact key (parseAIResponse resp q) rfl

/-- Witness for C6: a response with no JSON object yields the
zero-confidence "No JSON found in response" result. -/
theorem parseQuery_failure_semantics_witness :
    (parseQuery (.ok "not valid json at all") "q" []).confidence = 0 ∧
    (parseQuery (.ok "not valid json at all") "q" []).error =
      some "No JSON found in response" :=
  (parseQuery_failure_semantics "q" "m" "not valid json at all" []).2.2.1
    (by decide)

/-! C9: pagination round-trip. -/

theorem concatPages_congr {α : Type} (f g : Nat → List α)
    (h : ∀ i, f i = g i) : ∀ n, concatPages f n = concatPages g n := by
  intro n
  induction n with
  | zero => rfl
  | succ n ih =>
    simp only [concatPages]
    rw [ih, h n]

theorem concatPages_take {α : Type} (l : List α) (ps : Nat) (n : Nat) :
    concatPages (fun i => (l.drop (i * ps)).take ps) n = l.take (n * ps) := by
  induction n with
  | zero => simp [concatPages]
  | succ n ih =>
    simp only [concatPages]
    rw [ih, Nat.succ_mul, List.take_add]

theorem le_ceil_mul (n p : Nat) (hp : 1 ≤ p) :
    n ≤ ((n + p - 1) / p) * p := by
  have h := Nat.div_add_mod (n + p - 1) p
  have h2 : (n + p - 1) % p < p := Nat.mod_lt _ (by omega)
  rw [Nat.mul_comm]
  generalize hX : p * ((n + p - 1) / p) = X at h ⊢
  generalize hY : (n + p - 1) % p = Y at h h2
  omega

theorem ceilDivInt_natCast (n p : Nat) (hp : 1 ≤ p) :
    ceilDivInt (n : Int) (p : Int) = ((n + p - 1) / p : Nat) := by
  obtain ⟨p', rfl⟩ : ∃ p', p = p' + 1 := ⟨p - 1, by omega⟩
  unfold ceilDivInt
  rw [if_neg (show ¬ (((p' + 1 : Nat) : Int) = 0) by push_cast; omega)]
  cases n with
  | zero =>
    have h1 : (0 : Nat) + (p' + 1) - 1 = p' := by omega
    rw [h1, Nat.div_eq_of_lt (by omega)]
    simp [Int.zero_fdiv]
  | succ k =>
    have hneg : -(((k + 1 : Nat)) : Int) = Int.negSucc k := by
      rw [Int.negSucc_eq]
      push_cast
      ring
    rw [hneg]
    have hfdiv : Int.fdiv (Int.negSucc k) ((p' + 1 : Nat) : Int) =
        Int.negSucc (k / (p' + 1)) := rfl
    rw [hfdiv, Int.negSucc_eq]
    have h2 : (k + 1) + (p' + 1) - 1 = k + (p' + 1) := by omega
    rw [h2, Nat.add_div_right _ (by omega)]
    push_cast
    ring

theorem jsSlice_page {α : Type} (l : List α) (i ps : Nat) :
    jsSlice l ((i : Int) * (ps : Int)) ((i : Int) * (ps : Int) + (ps : Int)) =
      (l.drop (i * ps)).take ps := by
  simp only [jsSlice]
  have hm : (i : Int) * (ps : Int) = ((i * ps : Nat) : Int) := by
    push_cast
    ring
  have hm2 : (i : Int) * (ps : Int) + (ps : Int) =
      ((i * ps + ps : Nat) : Int) := by
    push_cast
    ring
  rw [hm2, hm]
  rw [if_neg (show ¬ (((i * ps : Nat) : Int) < 0) from
      not_lt.mpr (by positivity)),
    if_neg (show ¬ (((i * ps + ps : Nat) : Int) < 0) from
      not_lt.mpr (by positivity))]
  rw [← Nat.cast_min, ← Nat.cast_min, Int.toNat_natCast]
  have hmin_le : min (i * ps) l.length ≤ min (i * ps + ps) l.length :=
    min_le_min (by omega) (le_refl _)
  rw [← Int.natCast_sub hmin_le, Int.toNat_natCast]
  by_cases hle : i * ps ≤ l.length
  · rw [min_eq_left hle]
    apply List.take_eq_take.mpr
    rw [List.length_drop]
    omega
  · have hge : l.length ≤ i * ps := by omega
    rw [min_eq_right hge, List.drop_length,
      List.drop_eq_nil_of_le (by omega : l.length ≤ i * ps)]
    simp

/-- C9: for every row sequence and page size ≥ 1, concatenating
`paginateData(rows, {pageIndex: i, pageSize})` for `i = 0 .. pageCount-1`,
with `pageCount = ceil(totalRows / pageSize)` from `getPaginationInfo`,
reconstructs the input sequence exactly — no duplicates, no omissions. -/
theorem paginateData_roundtrip {α : Type} (rows : List α) (ps : Nat)
    (hps : 1 ≤ ps) :
    concatPages
      (fun i => paginateData rows { pageIndex := (i : Int), pageSize := (ps : Int) })
      ((getPaginationInfo rows.length
        { pageIndex := 0, pageSize := (ps : Int) }).pageCount).toNat = rows := by
  have hpages : ∀ i : Nat,
      paginateData rows { pageIndex := (i : Int), pageSize := (ps : Int) } =
        (rows.drop (i * ps)).take ps := by
    intro i
    unfold paginateData
    exact jsSlice_page rows i ps
  have hcount : ((getPaginationInfo rows.length
      { pageIndex := 0, pageSize := (ps : Int) }).pageCount).toNat =
      (rows.length + ps - 1) / ps := by
    unfold getPaginationInfo
    simp only []
    rw [ceilDivInt_natCast rows.length ps hps, Int.toNat_natCast]
  rw [concatPages_congr _ _ hpages, hcount, concatPages_take]
  exact List.take_of_length_le (le_ceil_mul rows.length ps hps)

/-- Witness for C9: 7 rows with page size 3 concatenate back to the
original list over the 3 pages. -/
theorem paginateData_roundtrip_witness :
    concatPages
      (fun i => paginateData [1, 2, 3, 4, 5, 6, 7]
        { pageIndex := (i : Int), pageSize := ((3 : Nat) : Int) })
      ((getPaginationInfo (List.length [1, 2, 3, 4, 5, 6, 7])
        { pageIndex := 0, pageSize := ((3 : Nat) : Int) }).pageCount).toNat =
      [1, 2, 3, 4, 5, 6, 7] :=
  paginateData_roundtrip [1, 2, 3, 4, 5, 6, 7] 3 (by decide)

/-! C1: null placement under sorting. -/

theorem mem_stableInsert {α : Type} (cmp : α → α → Option Int) (x : α)
    (l : List α) (y : α) :
    y ∈ stableInsert cmp x l ↔ y = x ∨ y ∈ l := by
  induction l with
  | nil => simp [stableInsert]
  | cons b t ih =>
    simp only [stableInsert]
    by_cases hc : cmpGtb (cmp x b) = true
    · rw [if_pos hc]
      simp only [List.mem_cons, ih]
      tauto
    · rw [if_neg hc]
      simp only [List.mem_cons]

theorem stableInsert_pairwise {α : Type} (cmp : α → α → Option Int)
    (P : α → Prop)
    (H1 : ∀ a b, P a → ¬ P b → cmpGtb (cmp a b) = true)
    (H3 : ∀ a b, ¬ P a → P b → cmpGtb (cmp a b) = false)
    (x : α) (l : List α)
    (hl : l.Pairwise (fun a b => ¬(P a ∧ ¬ P b))) :
    (stableInsert cmp x l).Pairwise (fun a b => ¬(P a ∧ ¬ P b)) := by
  induction l with
  | nil => simp [stableInsert]
  | cons b t ih =>
    rw [List.pairwise_cons] at hl
    obtain ⟨hb, ht⟩ := hl
    simp only [stableInsert]
    by_cases hc : cmpGtb (cmp x b) = true
    · rw [if_pos hc]
      apply List.Pairwise.cons
      · intro y hy
        rw [mem_stableInsert] at hy
        cases hy with
        | inl hyx =>
          subst hyx
          rintro ⟨hPb, hnPy⟩
          rw [H3 y b hnPy hPb] at hc
          exact absurd hc (by simp)
        | inr hyt => exact hb y hyt
      · exact ih ht
    · rw [if_neg hc]
      apply List.Pairwise.cons
      · intro y hy
        rintro ⟨hPx, hnPy⟩
        cases List.mem_cons.mp hy with
        | inl hyb =>
          subst hyb
          exact hc (H1 x y hPx hnPy)
        | inr hyt =>
          by_cases hPb : P b
          · exact hb y hyt ⟨hPb, hnPy⟩
          · exact hc (H1 x b hPx hPb)
      · exact List.Pairwise.cons hb ht

theorem stableSort_pairwise {α : Type} (cmp : α → α → Option Int)
    (P : α → Prop)
    (H1 : ∀ a b, P a → ¬ P b → cmpGtb (cmp a b) = true)
    (H3 : ∀ a b, ¬ P a → P b → cmpGtb (cmp a b) = false)
    (l : List α) :
    (stableSort cmp l).Pairwise (fun a b => ¬(P a ∧ ¬ P b)) := by
  induction l with
  | nil => simp [stableSort]
  | cons a t ih =>
    simp only [stableSort]
    exact stableInsert_pairwise cmp P H1 H3 a _ ih

theorem compareValues_null_left (b : Value) (dt : Option DataType)
    (hb : ¬ b = .null) : compareValues .null b dt = some 1 := by
  unfold compareValues
  rw [if_neg (by simp [hb]), if_pos rfl]

theorem compareValues_null_right (a : Value) (dt : Option DataType)
    (ha : ¬ a = .null) : compareValues a .null dt = some (-1) := by
  unfold compareValues
  rw [if_neg (by simp [ha]), if_neg ha, if_pos rfl]

theorem rowComparator_single (columns : List TailGridColumn) (cid : String)
    (desc : Bool) (col : TailGridColumn) (a b : Row)
    (hcol : columnMapGet columns cid = some col) :
    rowComparator [⟨cid, desc⟩] columns a b =
      match compareValues (getRowValue a col) (getRowValue b col)
          col.dataType with
      | some 0 => some 0
      | some r => some (if desc then -r else r)
      | none => none := by
  simp only [rowComparator, rowCompareGo, hcol]

/-- C1 (amended): with a single-column sort spec, `sortData` places
null/undefined-valued rows after every defined-valued row when the entry is
ascending, and before every defined-valued row when it is descending — the
null comparison is negated by the `desc` flag like any other comparison, so
reversing the direction moves the null block from the back to the front. -/
theorem sortData_null_placement (rows : List Row)
    (columns : List TailGridColumn) (cid : String) (col : TailGridColumn)
    (hcol : columnMapGet columns cid = some col) :
    (sortData rows [⟨cid, false⟩] columns).Pairwise
      (fun a b => ¬(getRowValue a col = .null ∧
        ¬ getRowValue b col = .null)) ∧
    (sortData rows [⟨cid, true⟩] columns).Pairwise
      (fun a b => ¬(¬ getRowValue a col = .null ∧
        getRowValue b col = .null)) := by
  constructor
  · show (stableSort (rowComparator [⟨cid, false⟩] columns) rows).Pairwise _
    apply stableSort_pairwise _ (fun r => getRowValue r col = Value.null)
    · intro a b hPa hPb
      rw [rowComparator_single columns cid false col a b hcol, hPa,
        compareValues_null_left _ _ hPb]
      rfl
    · intro a b hPa hPb
      rw [rowComparator_single columns cid false col a b hcol, hPb,
        compareValues_null_right _ _ hPa]
      rfl
  · show (stableSort (rowComparator [⟨cid, true⟩] columns) rows).Pairwise _
    have h := stableSort_pairwise (rowComparator [⟨cid, true⟩] columns)
      (fun r => ¬ getRowValue r col = Value.null) ?h1 ?h3 rows
    case h1 =>
      intro a b hPa hPb
      have hbnull : getRowValue b col = Value.null := not_not.mp hPb
      rw [rowComparator_single columns cid true col a b hcol, hbnull,
        compareValues_null_right _ _ hPa]
      rfl
    case h3 =>
      intro a b hPa hPb
      have hanull : getRowValue a col = Value.null := not_not.mp hPa
      rw [rowComparator_single columns cid true col a b hcol, hanull,
        compareValues_null_left _ _ hPb]
      rfl
    refine h.imp ?_
    intro a b hr
    rintro ⟨hna, hb⟩
    exact hr ⟨hna, fun f => f hb⟩

/-- C1 counterexample: sorting `[defined, null]` by a single descending
numeric column places the null row first — null/undefined values are not
kept after defined values when the direction is descending. -/
theorem sortData_desc_nulls_first :
    sortData [rowDefX, rowNullX] [⟨"x", true⟩] [colX] = [rowNullX, rowDefX] ∧
    ¬ ((sortData [rowDefX, rowNullX] [⟨"x", true⟩] [colX]).Pairwise
      (fun a b => ¬(getRowValue a colX = .null ∧
        ¬ getRowValue b colX = .null))) := by
  constructor
  · decide
  · intro h
    rw [(by decide : sortData [rowDefX, rowNullX] [⟨"x", true⟩] [colX] =
      [rowNullX, rowDefX])] at h
    rw [List.pairwise_cons] at h
    exact h.1 rowDefX (by simp) (by decide)

/-- Witness for C1 at the two-row example. -/
theorem sortData_null_placement_witness :
    (sortData [rowDefX, rowNullX] [⟨"x", false⟩] [colX]).Pairwise
      (fun a b => ¬(getRowValue a colX = .null ∧
        ¬ getRowValue b colX = .null)) ∧
    (sortData [rowDefX, rowNullX] [⟨"x", true⟩] [colX]).Pairwise
      (fun a b => ¬(¬ getRowValue a colX = .null ∧
        getRowValue b colX = .null)) :=
  sortData_null_placement [rowDefX, rowNullX] [colX] "x" colX rfl

/-! C4: equals/notEquals dispatch; notEquals has no date branch. -/

theorem jsNumNeb_eq_not (v f : Value) : jsNumNeb v f = !(jsNumEqb v f) := by
  unfold jsNumNeb jsNumEqb
  cases jsNumber v <;> cases jsNumber f <;> simp

theorem matchesFilter_notEquals_eq (v f : Value) (cid : String)
    (dt : Option DataType) (hv : ¬ v = .null) :
    matchesFilter v ⟨cid, .notEquals, f⟩ dt =
      (if dt = some .number ∨ dt = some .currency then jsNumNeb v f
       else if dt = some .boolean then decide (v ≠ f)
       else decide (jsToLowerCase (jsToString v) ≠
         jsToLowerCase (jsToString f))) := by
  simp only [matchesFilter]
  rw [if_neg (by decide), if_neg (by decide), if_neg hv]

theorem matchesFilter_equals_eq (v f : Value) (cid : String)
    (dt : Option DataType) (hv : ¬ v = .null) :
    matchesFilter v ⟨cid, .equals, f⟩ dt =
      (if dt = some .number ∨ dt = some .currency then jsNumEqb v f
       else if dt = some .boolean then decide (v = f)
       else if dt = some .date then decide (dayString v = dayString f)
       else decide (jsToLowerCase (jsToString v) =
         jsToLowerCase (jsToString f))) := by
  simp only [matchesFilter]
  rw [if_neg (by decide), if_neg (by decide), if_neg hv]

/-- C4 counterexample: two `Date` values on the same calendar day (10:00
and 08:00 of 2024-01-01 UTC): `equals` matches them (same-day dispatch),
but `notEquals` also matches them — it compares the string renderings, not
the negated same-day test. -/
theorem notEquals_date_uses_string_compare :
    matchesFilter (.date 1704103200000) ⟨"c", .equals, .date 1704096000000⟩
      (some .date) = true ∧
    matchesFilter (.date 1704103200000) ⟨"c", .notEquals, .date 1704096000000⟩
      (some .date) = true ∧
    ¬ (matchesFilter (.date 1704103200000)
        ⟨"c", .notEquals, .date 1704096000000⟩ (some .date) =
      !(matchesFilter (.date 1704103200000)
        ⟨"c", .equals, .date 1704096000000⟩ (some .date))) := by
  decide

/-- C4 (amended): for non-null values, `equals` is type-dispatched exactly
as claimed (numeric for number/currency, exact value for boolean, same
calendar day for date, case-insensitive string otherwise), and `notEquals`
is its pointwise negation for every data type except `date`: a date column
has no `notEquals` branch and falls through to case-insensitive string
inequality of the rendered values, which is not the negation of the
same-calendar-day test. -/
theorem equals_notEquals_dispatch (v f : Value) (cid : String)
    (dt : Option DataType) (hv : ¬ v = .null) :
    (¬ dt = some .date →
      matchesFilter v ⟨cid, .notEquals, f⟩ dt =
        !(matchesFilter v ⟨cid, .equals, f⟩ dt)) ∧
    (matchesFilter v ⟨cid, .equals, f⟩ (some .date) =
      decide (dayString v = dayString f)) ∧
    (matchesFilter v ⟨cid, .notEquals, f⟩ (some .date) =
      !(decide (jsToLowerCase (jsToString v) =
        jsToLowerCase (jsToString f)))) := by
  refine ⟨fun hdt => ?_, ?_, ?_⟩
  · rw [matchesFilter_notEquals_eq v f cid dt hv,
      matchesFilter_equals_eq v f cid dt hv]
    by_cases h1 : dt = some .number ∨ dt = some .currency
    · rw [if_pos h1, if_pos h1]
      exact jsNumNeb_eq_not v f
    · rw [if_neg h1, if_neg h1]
      by_cases h2 : dt = some .boolean
      · rw [if_pos h2, if_pos h2]
        simp
      · rw [if_neg h2, if_neg h2, if_neg hdt]
        simp
  · rw [matchesFilter_equals_eq v f cid (some .date) hv]
    rw [if_neg (by decide), if_neg (by decide), if_pos rfl]
  · rw [matchesFilter_notEquals_eq v f cid (some .date) hv]
    rw [if_neg (by decide), if_neg (by decide)]
    simp

/-- Witness for C4: on a numeric column, notEquals is the negation of
equals. -/
theorem equals_notEquals_dispatch_witness :
    matchesFilter (.num 5) ⟨"c", .notEquals, .num 5⟩ (some .number) =
      !(matchesFilter (.num 5) ⟨"c", .equals, .num 5⟩ (some .number)) :=
  (equals_notEquals_dispatch (.num 5) (.num 5) "c" (some .number)
    (by decide)).1 (by decide)

end TailGrid
